import Mathlib

/-!
Verification development for the `plotting` repository: a shallow embedding
of its configuration record, font manager, rc-parameter setter, figure
factory and style applicator, with theorems checking the specified
properties against the embedded code.

Sources embedded (file and symbol names follow the repository):
  * `src/src/config.py` — `PlottingConfig` (dataclass, `to_dict`,
    `from_dict`, `update`, journal presets).
  * `src/plotting/figures.py` — `FontManager.load_fonts`,
    `Plotting.set_rc_params`, `Plotting.create_figure`,
    `Plot.apply_style`.
Numeric values are carried as rationals (ℚ); the constant `CM = 2.54`
is exact in ℚ.
-/

/-- A value stored in a flat configuration document or passed to
`PlottingConfig.update`.  Python carries these dynamically typed; the
embedding enumerates the shapes the configuration fields actually use:
strings, integers, non-integral numbers, and the font-size mapping. -/
inductive ConfigValue where
  | str (s : String)
  | int (n : Int)
  | rat (q : ℚ)
  | sizes (m : List (String × Int))
deriving DecidableEq, Repr

/-- The configuration record of `src/src/config.py` (`@dataclass class
PlottingConfig`).  The `font_sizes` dictionary is embedded as an
association list; a record models an instance after `__post_init__` has
run, so `font_sizes` is always concrete. -/
structure PlottingConfig where
  default_font : String
  font_sizes : List (String × Int)
  dpi : Int
  default_width : ℚ
  default_height : ℚ
  default_unit : String
  spine_width : ℚ
  grid_color : String
  grid_style : String
  grid_width : ℚ
  color_palette : String
deriving DecidableEq, Repr

/-- Default value of `font_sizes` installed by `__post_init__` when the
field was not provided. -/
def defaultFontSizes : List (String × Int) :=
  [("small", 8), ("medium", 10), ("big", 12)]

/-- `PlottingConfig()` — the dataclass field defaults of
`src/src/config.py`, with `__post_init__` filling `font_sizes`. -/
def PlottingConfig.default : PlottingConfig where
  default_font := "Arial"
  font_sizes := defaultFontSizes
  dpi := 300
  default_width := 10
  default_height := 8
  default_unit := "cm"
  spine_width := 1.4
  grid_color := "C7"
  grid_style := "--"
  grid_width := 0.8
  color_palette := "deep"

/-- `PlottingConfig.to_dict` — the flat key-value document, keys and
order exactly as in the source. -/
def PlottingConfig.to_dict (c : PlottingConfig) : List (String × ConfigValue) :=
  [ ("default_font", .str c.default_font)
  , ("font_sizes", .sizes c.font_sizes)
  , ("dpi", .int c.dpi)
  , ("default_width", .rat c.default_width)
  , ("default_height", .rat c.default_height)
  , ("default_unit", .str c.default_unit)
  , ("spine_width", .rat c.spine_width)
  , ("grid_color", .str c.grid_color)
  , ("grid_style", .str c.grid_style)
  , ("grid_width", .rat c.grid_width)
  , ("color_palette", .str c.color_palette) ]

/-- One keyword argument of the dataclass constructor `cls(**config_dict)`:
sets the named field when the name is a dataclass field and the value has
that field's shape, and fails (Python `TypeError`) on an unexpected
keyword.  (Python would also store a wrong-shaped value unchecked; the
embedding covers the well-shaped documents `to_dict` produces.) -/
def PlottingConfig.setCtorField (c : PlottingConfig) :
    String × ConfigValue → Option PlottingConfig
  | ("default_font", .str s) => some { c with default_font := s }
  | ("font_sizes", .sizes m) => some { c with font_sizes := m }
  | ("dpi", .int n) => some { c with dpi := n }
  | ("default_width", .rat q) => some { c with default_width := q }
  | ("default_height", .rat q) => some { c with default_height := q }
  | ("default_unit", .str s) => some { c with default_unit := s }
  | ("spine_width", .rat q) => some { c with spine_width := q }
  | ("grid_color", .str s) => some { c with grid_color := s }
  | ("grid_style", .str s) => some { c with grid_style := s }
  | ("grid_width", .rat q) => some { c with grid_width := q }
  | ("color_palette", .str s) => some { c with color_palette := s }
  | _ => none

/-- `PlottingConfig.from_dict(config_dict)` = `cls(**config_dict)`:
fields not mentioned keep their dataclass defaults, every mentioned key
must be a constructor keyword. -/
def PlottingConfig.from_dict (doc : List (String × ConfigValue)) :
    Option PlottingConfig :=
  doc.foldlM PlottingConfig.setCtorField PlottingConfig.default

/-- The attribute names `hasattr(self, key)` recognises on a
`PlottingConfig` instance: the eleven dataclass fields and the methods
declared on the class.  (Attributes inherited from `object`, such as
dunder names, are outside the modelled key domain; realistic
configuration keys never collide with them.) -/
def PlottingConfig.recognized (key : String) : Bool :=
  key ∈ [ "default_font", "font_sizes", "dpi", "default_width",
          "default_height", "default_unit", "spine_width", "grid_color",
          "grid_style", "grid_width", "color_palette",
          "from_dict", "from_json", "to_dict", "to_json", "update",
          "get_journal_preset" ]

/-- Effect of `setattr(self, key, value)` on the eleven data fields of
the record: a field name with a value of that field's shape overwrites
the field; any other recognised attribute name (a method name) shadows
the method on the instance and leaves every data field unchanged.
(Python would also store a wrong-shaped value in a field slot unchecked;
the embedding covers well-shaped updates, which is the domain the claims
quantify over.) -/
def PlottingConfig.setAttr (c : PlottingConfig) (key : String)
    (v : ConfigValue) : PlottingConfig :=
  match c.setCtorField (key, v) with
  | some c2 => c2
  | none => c

/-- `PlottingConfig.update(**kwargs)` — walks the keyword arguments in
order; a recognised key is applied via `setattr` at once, and the first
unrecognised key raises `ValueError("Unknown configuration parameter")`,
abandoning the rest.  The result pairs the record as left after the call
(Python mutates `self` in place, so partial updates survive the raise)
with the offending key when the call raised. -/
def PlottingConfig.updateRun (c : PlottingConfig) :
    List (String × ConfigValue) → PlottingConfig × Option String
  | [] => (c, none)
  | (key, v) :: rest =>
      if PlottingConfig.recognized key then
        PlottingConfig.updateRun (c.setAttr key v) rest
      else
        (c, some key)

/-! ## Unit conversion and the figure factory (`src/plotting/figures.py`) -/

/-- `CM = 2.54` — centimeters-to-inches conversion factor from
`src/plotting/__init__.py`; exact as a rational. -/
def CM : ℚ := 2.54

/-- Dimension conversion inlined in `Plotting.create_figure` (and
`Plotting.get_figures` of `src/src/figures.py`): `"cm"` divides by `CM`,
anything else passes through (the caller has already restricted the unit
to `"cm"` or `"inch"`). -/
def convertDim (value : ℚ) (unit : String) : ℚ :=
  if unit = "cm" then value / CM else value

/-- The unit conversion step of figure creation as a fallible function
(the spec calls it `toEngineUnits`): `create_figure` raises
`ValueError` before converting when the unit is neither `"cm"` nor
`"inch"`. -/
def toEngineUnits (value : ℚ) (unit : String) : Except String ℚ :=
  if unit = "cm" ∨ unit = "inch" then .ok (convertDim value unit)
  else .error ("Unit must be cm or inch, got " ++ unit)

/-- A spine of a plot area: visibility, stroke width, and the position
set by `set_position(("outward", offset))` when one has been applied. -/
structure Spine where
  visible : Bool
  linewidth : ℚ
  position : Option (String × ℚ)
deriving DecidableEq, Repr

/-- Arguments of an `ax.tick_params` call (direction, length, width,
bottom, left), recorded per tick class once styling has touched it. -/
structure TickStyle where
  direction : String
  length : ℚ
  width : ℚ
  bottom : Bool
  left : Bool
deriving DecidableEq, Repr

/-- Arguments of one `ax.grid` call; the engine appends a gridline layer
per call, so repeated calls accumulate (the known duplication caveat). -/
structure GridCall where
  axis : String
  color : String
  linestyle : String
  linewidth : ℚ
  alpha : ℚ
deriving DecidableEq, Repr

/-- One plot area (matplotlib axes): its four spines, the recorded tick
styling (`none` = engine defaults, untouched), and the accumulated
`ax.grid` calls. -/
structure AxState where
  top : Spine
  right : Spine
  left : Spine
  bottom : Spine
  majorTicks : Option TickStyle
  minorTicks : Option TickStyle
  gridCalls : List GridCall
deriving DecidableEq, Repr

/-- A freshly created plot area: all four spines visible at the engine
default stroke width 0.8 (`rcParams["axes.linewidth"]`), no outward
offsets, default ticks, no gridline layers. -/
def AxState.fresh : AxState where
  top := ⟨true, 0.8, none⟩
  right := ⟨true, 0.8, none⟩
  left := ⟨true, 0.8, none⟩
  bottom := ⟨true, 0.8, none⟩
  majorTicks := none
  minorTicks := none
  gridCalls := []

/-- The `Plot` wrapper of `src/plotting/figures.py`: a matplotlib figure
(its size in inches and flat list `fig.axes` of plot areas) plus the
`_style_applied` flag added by `Plot.__init__`. -/
structure PlotFig where
  figsize : ℚ × ℚ
  axes : List AxState
  styleApplied : Bool
deriving DecidableEq, Repr

/-- Parameters of `Plot.apply_style`, with its Python default values. -/
structure StyleParams where
  despine : Bool := true
  grid : Bool := true
  offset_left : ℚ := 5
  offset_bottom : ℚ := 5
  spine_width : ℚ := 1.4
  grid_color : String := "C7"
  grid_style : String := "--"
  grid_width : ℚ := 0.8
deriving DecidableEq, Repr

/-- Effect of `sns.despine(fig=self, top=True, right=True, left=False,
bottom=False, offset={"left": offset_left, "bottom": offset_bottom})` on
one plot area: top and right spines hidden, left and bottom left (set)
visible and repositioned outward by their offsets. -/
def despineAx (offL offB : ℚ) (a : AxState) : AxState :=
  { a with
    top := { a.top with visible := false }
    right := { a.right with visible := false }
    left := { a.left with visible := true, position := some ("outward", offL) }
    bottom := { a.bottom with visible := true, position := some ("outward", offB) } }

/-- The per-axes body of `Plot.apply_style`: optional despine, optional
`ax.grid(axis="y", ..., alpha=0.7)`, `tick_params` for major and minor
ticks, then `set_linewidth(spine_width)` on all four spines (hidden ones
included, as `ax.spines.values()` iterates them all). -/
def styleAx (p : StyleParams) (a : AxState) : AxState :=
  let a := if p.despine then despineAx p.offset_left p.offset_bottom a else a
  let a := if p.grid then
      { a with gridCalls := a.gridCalls ++
          [⟨"y", p.grid_color, p.grid_style, p.grid_width, 0.7⟩] }
    else a
  let a := { a with
    majorTicks := some ⟨"out", 3, p.spine_width, true, true⟩
    minorTicks := some ⟨"out", 2, p.spine_width / 2, true, true⟩ }
  { a with
    top := { a.top with linewidth := p.spine_width }
    right := { a.right with linewidth := p.spine_width }
    left := { a.left with linewidth := p.spine_width }
    bottom := { a.bottom with linewidth := p.spine_width } }

/-- `Plot.apply_style`: styles every plot area of the figure, runs one
`tight_layout` pass (no effect on the modelled state), and sets the
`_style_applied` flag. -/
def Plot.apply_style (p : StyleParams) (f : PlotFig) : PlotFig :=
  { f with axes := f.axes.map (styleAx p), styleApplied := true }

/-- Process-wide state of the rendering engine that figure creation can
observe: the interactive/auto-display flag (`plt.isinteractive()`). -/
structure EngineState where
  interactive : Bool
deriving DecidableEq, Repr

/-- Errors figure creation can surface: the `ValueError` raised by
`create_figure` itself for a bad unit, and errors raised inside the
engine (matplotlib rejects non-positive subplot grids and negative
figure sizes). -/
inductive FigError where
  | invalidUnit (msg : String)
  | engineError (msg : String)
deriving DecidableEq, Repr

/-- Shape of the axes value `create_figure` returns: a lone axes handle
from `add_subplot(1, 1, 1)`, or the rows × cols array from
`subplots(...)`. -/
inductive AxesHandle where
  | single
  | grid (rows cols : Nat)
deriving DecidableEq, Repr

/-- `Plotting.create_figure(rows, cols, width, height, unit, sharex,
sharey)` of `src/plotting/figures.py`, threaded through the engine state
it could read or write.  Faithful to the source: the only validation is
the unit check; dimensions and grid shape go straight to the engine
(`Plot(figsize=figsize)` accepts any non-negative size including zero,
`subplots` rejects a non-positive row or column count); no styling call
and no interactive-mode call is made; `sharex`/`sharey` configure axis
sharing inside the engine and do not affect the modelled state. -/
def Plotting.create_figure (st : EngineState) (rows cols : Int)
    (width height : ℚ) (unit : String) (sharex sharey : Bool) :
    EngineState × Except FigError (PlotFig × AxesHandle) :=
  if ¬ (unit = "cm" ∨ unit = "inch") then
    (st, .error (.invalidUnit ("Unit must be cm or inch, got " ++ unit)))
  else
    let figsize := (convertDim width unit, convertDim height unit)
    if figsize.1 < 0 ∨ figsize.2 < 0 then
      (st, .error (.engineError "figure size must be positive finite"))
    else
      let plot : PlotFig := ⟨figsize, [], false⟩
      if rows = 1 ∧ cols = 1 then
        (st, .ok ({ plot with axes := [AxState.fresh] }, .single))
      else if rows ≤ 0 ∨ cols ≤ 0 then
        (st, .error (.engineError "Number of rows must be a positive integer"))
      else
        (st, .ok ({ plot with
            axes := List.replicate (rows.toNat * cols.toNat) AxState.fresh },
          .grid rows.toNat cols.toNat))

/-- Projection used by several checks: the `Plot` object a successful
`create_figure` call handed back, if any. -/
def resultPlot (r : EngineState × Except FigError (PlotFig × AxesHandle)) :
    Option PlotFig :=
  match r.2 with
  | .ok (p, _) => some p
  | .error _ => none

/-! ## Font manager (`FontManager` of `src/plotting/figures.py`) -/

/-- A file in the font directory: stem, (lower-cased) extension, and
whether the engine call `fontManager.addfont` on it succeeds. -/
structure FontFile where
  stem : String
  ext : String
  registers : Bool
deriving DecidableEq, Repr

/-- The font directory as `load_fonts` observes it: absent, or present
with its directory listing. -/
inductive FontDir where
  | absent
  | present (files : List FontFile)
deriving DecidableEq, Repr

/-- The process-wide class state of `FontManager`: the
`_fonts_loaded` flag, the `_available_fonts` set (as a duplicate-free
insertion-ordered list), and the warnings recorded so far. -/
structure FontState where
  fontsLoaded : Bool
  availableFonts : List String
  warnings : List String
deriving DecidableEq, Repr

/-- The extension filter of `load_fonts`. -/
def fontExtensions : List String := [".ttf", ".otf", ".woff", ".woff2"]

/-- Registration loop body: on success the stem joins the
`_available_fonts` set, on failure a warning is recorded. -/
def registerFont (s : FontState) (f : FontFile) : FontState :=
  if f.registers then
    if f.stem ∈ s.availableFonts then s
    else { s with availableFonts := s.availableFonts ++ [f.stem] }
  else
    { s with warnings := s.warnings ++ ["Failed to load font " ++ f.stem] }

/-- `FontManager.load_fonts(font_dir)`: returns at once when fonts are
already loaded; an absent directory records a warning and marks fonts
loaded; an empty scan likewise; otherwise every matching file is
registered (individual failures are warnings) and the flag is set.  The
function is total — no path raises. -/
def FontManager.load_fonts (s : FontState) (dir : FontDir) : FontState :=
  if s.fontsLoaded then s
  else
    match dir with
    | .absent =>
        { s with
          warnings := s.warnings ++ ["Font directory not found. Using system fonts only."]
          fontsLoaded := true }
    | .present files =>
        let fontFiles := files.filter (fun f => f.ext ∈ fontExtensions)
        if fontFiles.isEmpty then
          { s with
            warnings := s.warnings ++ ["No font files found"]
            fontsLoaded := true }
        else
          { fontFiles.foldl registerFont s with fontsLoaded := true }

/-! ## rc parameters (`Plotting.set_rc_params` of `src/plotting/figures.py`) -/

/-- The rc parameters `set_rc_params` writes. -/
structure RcParams where
  font_family : String
  font_size : Int
  axes_titlesize : Int
  axes_labelsize : Int
  xtick_labelsize : Int
  ytick_labelsize : Int
  legend_fontsize : Int
  savefig_dpi : Int
  figure_dpi : Int
  pdf_fonttype : Int
  ps_fonttype : Int
deriving DecidableEq, Repr

/-- Dictionary lookup `font_sizes[tier]` (fails like `KeyError` when the
tier is missing). -/
def lookupSize (m : List (String × Int)) (tier : String) : Option Int :=
  (m.find? (fun p => p.1 = tier)).map (fun p => p.2)

/-- Python `x or d` for an optional integer argument: `None` and `0` are
falsy and fall back to `d` (evaluated only then — the fallback is the
lazy `font_sizes[...]` lookup, so its `KeyError` can only fire on the
falsy path). -/
def orFalsyInt (v : Option Int) (d : Option Int) : Option Int :=
  match v with
  | none => d
  | some n => if n = 0 then d else some n

/-- Python `x or d` for an optional string argument: `None` and `""` are
falsy. -/
def orFalsyStr (v : Option String) (d : String) : String :=
  match v with
  | none => d
  | some s => if s = "" then d else s

/-- `Plotting.set_rc_params(fontfamily, small, medium, big)`: each falsy
argument falls back to the configuration record; the resolved family is
replaced by `"DejaVu Sans"` with a warning when
`FontManager.is_font_available` rejects it (`available` stands for the
set of registered plus system font names); the rc dictionary is then
written as in the source.  Returns `none` exactly when a needed
`font_sizes` lookup raises `KeyError`. -/
def Plotting.set_rc_params (cfg : PlottingConfig) (available : List String)
    (fontfamily : Option String) (small medium big : Option Int) :
    Option RcParams := do
  let fam0 := orFalsyStr fontfamily cfg.default_font
  let s ← orFalsyInt small (lookupSize cfg.font_sizes "small")
  let m ← orFalsyInt medium (lookupSize cfg.font_sizes "medium")
  let b ← orFalsyInt big (lookupSize cfg.font_sizes "big")
  let fam := if fam0 ∈ available then fam0 else "DejaVu Sans"
  pure
    { font_family := fam
      font_size := m
      axes_titlesize := b
      axes_labelsize := m
      xtick_labelsize := s
      ytick_labelsize := s
      legend_fontsize := s
      savefig_dpi := cfg.dpi
      figure_dpi := cfg.dpi
      pdf_fonttype := 42
      ps_fonttype := 42 }

/-! ## Observations used by the idempotence check -/

/-- The per-axes properties the idempotence property speaks about:
spine visibility, spine stroke widths, and tick parameters (gridline
layers are deliberately excluded — they accumulate). -/
structure AxObs where
  topVisible : Bool
  rightVisible : Bool
  leftVisible : Bool
  bottomVisible : Bool
  topWidth : ℚ
  rightWidth : ℚ
  leftWidth : ℚ
  bottomWidth : ℚ
  majorTicks : Option TickStyle
  minorTicks : Option TickStyle
deriving DecidableEq, Repr

/-- Observation of one plot area. -/
def axObs (a : AxState) : AxObs :=
  ⟨a.top.visible, a.right.visible, a.left.visible, a.bottom.visible,
   a.top.linewidth, a.right.linewidth, a.left.linewidth, a.bottom.linewidth,
   a.majorTicks, a.minorTicks⟩

/-- Observation of every plot area of a figure. -/
def obsPlot (f : PlotFig) : List AxObs := f.axes.map axObs

/-- Sequential `setattr` application of a list of keyword arguments, as
`update` performs it on the recognised prefix of its argument list. -/
def PlottingConfig.applyAll (c : PlottingConfig)
    (kvs : List (String × ConfigValue)) : PlottingConfig :=
  kvs.foldl (fun a kv => a.setAttr kv.1 kv.2) c

/-! ## Theorems -/

/-- Claim C1.  The claim states that `create_figure` rejects `rows ≤ 0`,
`cols ≤ 0`, `width ≤ 0` and `height ≤ 0` with validation errors and
creates no figure.  The source performs no such validation: with
`width = 0` (and likewise `height = 0`) the call succeeds outright and
hands back a figure, so the claimed `InvalidDimensions` failure never
happens. -/
theorem claim_C1_no_dimension_validation :
    (resultPlot (Plotting.create_figure ⟨false⟩ 1 1 0 8 "cm" false false)).isSome = true
    ∧ (resultPlot (Plotting.create_figure ⟨false⟩ 1 1 10 0 "cm" false false)).isSome = true
    ∧ resultPlot (Plotting.create_figure ⟨false⟩ 1 1 0 8 "cm" false false)
        = some { figsize := (0, 8 / CM), axes := [AxState.fresh], styleApplied := false } := by
  refine ⟨?_, ?_, ?_⟩ <;>
    norm_num [Plotting.create_figure, resultPlot, convertDim, CM]

/-- Claim C2.  The claim states that every figure the factory returns is
already styled (flag set, top/right spines hidden, spine width 1.4).
The source never invokes `apply_style` inside `create_figure`: the
returned figure has `_style_applied = False` and its axes carry the
engine defaults (all spines visible at stroke width 0.8). -/
theorem claim_C2_factory_returns_unstyled :
    (resultPlot (Plotting.create_figure ⟨false⟩ 1 1 10 8 "cm" false false)).map
        (fun p => (p.styleApplied,
          p.axes.map (fun a => (a.top.visible, a.right.visible, a.left.linewidth))))
      = some (false, [(true, true, 0.8)]) := by
  norm_num [Plotting.create_figure, resultPlot, convertDim, CM, AxState.fresh]

/-- Claim C9.  The claim states that `create_figure` always disables the
interactive/auto-display mode before creating the figure.  The source
contains no such call: with the engine flag on, figure creation succeeds
and the flag is still on afterwards. -/
theorem claim_C9_interactive_untouched :
    ((Plotting.create_figure ⟨true⟩ 1 1 10 8 "cm" false false).1).interactive = true
    ∧ (resultPlot (Plotting.create_figure ⟨true⟩ 1 1 10 8 "cm" false false)).isSome = true := by
  constructor <;> norm_num [Plotting.create_figure, resultPlot, convertDim, CM]

/-- Claim C5: serialising a configuration record to the flat key-value
document and loading it back reconstructs the record exactly —
`from_dict (to_dict cfg) = cfg` for every record, every field of the
data model preserved. -/
theorem claim_C5_round_trip (cfg : PlottingConfig) :
    PlottingConfig.from_dict cfg.to_dict = some cfg := by
  rfl

/-- Claim C3: the dimension conversion of figure creation divides by
2.54 for centimeters, passes inches through, and any other unit string
makes `create_figure` fail with the invalid-unit error before a figure
exists. -/
theorem claim_C3_unit_conversion (v : ℚ) (u : String) (hcm : u ≠ "cm")
    (hin : u ≠ "inch") (st : EngineState) (rows cols : Int) (w h : ℚ)
    (sx sy : Bool) :
    toEngineUnits v "cm" = .ok (v / 2.54)
    ∧ toEngineUnits v "inch" = .ok v
    ∧ toEngineUnits v u = .error ("Unit must be cm or inch, got " ++ u)
    ∧ (Plotting.create_figure st rows cols w h u sx sy).2
        = .error (.invalidUnit ("Unit must be cm or inch, got " ++ u))
    ∧ resultPlot (Plotting.create_figure st rows cols w h u sx sy) = none := by
  refine ⟨?_, ?_, ?_, ?_, ?_⟩
  · simp [toEngineUnits, convertDim, CM]
  · simp [toEngineUnits, convertDim]
  · simp [toEngineUnits, hcm, hin]
  · simp [Plotting.create_figure, hcm, hin]
  · simp [resultPlot, Plotting.create_figure, hcm, hin]

/-- Witness for claim C3 at `v = 3`, `u = "mm"`. -/
theorem claim_C3_witness :
    toEngineUnits 3 "cm" = .ok (3 / 2.54)
    ∧ toEngineUnits 3 "inch" = .ok 3
    ∧ toEngineUnits 3 "mm" = .error ("Unit must be cm or inch, got " ++ "mm")
    ∧ (Plotting.create_figure ⟨false⟩ 1 1 10 8 "mm" false false).2
        = .error (.invalidUnit ("Unit must be cm or inch, got " ++ "mm"))
    ∧ resultPlot (Plotting.create_figure ⟨false⟩ 1 1 10 8 "mm" false false) = none :=
  claim_C3_unit_conversion 3 "mm" (by decide) (by decide) ⟨false⟩ 1 1 10 8 false false

/-- Claim C4: for `rows, cols ≥ 1` (at the default 10 × 8 cm size),
`create_figure` succeeds with exactly `rows * cols` plot areas on the
figure, and the returned axes value is the lone handle exactly in the
`rows = cols = 1` case. -/
theorem claim_C4_grid_counts (st : EngineState) (rows cols : Int)
    (h1 : 1 ≤ rows) (h2 : 1 ≤ cols) (sx sy : Bool) :
    ∃ p ax, (Plotting.create_figure st rows cols 10 8 "cm" sx sy).2 = .ok (p, ax)
      ∧ p.axes.length = rows.toNat * cols.toNat
      ∧ ((rows = 1 ∧ cols = 1) ↔ ax = AxesHandle.single) := by
  by_cases h : rows = 1 ∧ cols = 1
  · obtain ⟨hr, hc⟩ := h
    subst hr; subst hc
    refine ⟨⟨(10 / CM, 8 / CM), [AxState.fresh], false⟩, .single, ?_, ?_, ?_⟩
    · norm_num [Plotting.create_figure, convertDim, CM]
    · simp
    · simp
  · have hr0 : ¬(rows ≤ 0 ∨ cols ≤ 0) := by omega
    refine ⟨⟨(10 / CM, 8 / CM),
        List.replicate (rows.toNat * cols.toNat) AxState.fresh, false⟩,
      .grid rows.toNat cols.toNat, ?_, ?_, ?_⟩
    · norm_num [Plotting.create_figure, convertDim, CM, h, hr0]
    · simp
    · simp [h]

/-- Witness for claim C4 at `rows = 2`, `cols = 3`. -/
theorem claim_C4_witness :
    ∃ p ax, (Plotting.create_figure ⟨false⟩ 2 3 10 8 "cm" false false).2 = .ok (p, ax)
      ∧ p.axes.length = (2 : Int).toNat * (3 : Int).toNat
      ∧ (((2 : Int) = 1 ∧ (3 : Int) = 1) ↔ ax = AxesHandle.single) :=
  claim_C4_grid_counts ⟨false⟩ 2 3 (by norm_num) (by norm_num) false false

/-- Styling one plot area twice with the same parameters yields the same
observed spine visibility, spine widths and tick parameters as styling
it once (the gridline layers, excluded from the observation, do
accumulate). -/
theorem styleAx_obs_idem (p : StyleParams) (a : AxState) :
    axObs (styleAx p (styleAx p a)) = axObs (styleAx p a) := by
  by_cases hd : p.despine <;> by_cases hg : p.grid <;>
    simp [styleAx, despineAx, axObs, hd, hg]

/-- Claim C6: applying `apply_style` twice with identical parameters
leaves spine visibility, spine line width and tick parameters exactly as
after the first application, and the style-applied flag is set after
either call. -/
theorem claim_C6_apply_style_idempotent (f : PlotFig) (p : StyleParams) :
    obsPlot (Plot.apply_style p (Plot.apply_style p f)) = obsPlot (Plot.apply_style p f)
    ∧ (Plot.apply_style p f).styleApplied = true
    ∧ (Plot.apply_style p (Plot.apply_style p f)).styleApplied = true := by
  refine ⟨?_, rfl, rfl⟩
  have key : ∀ l : List AxState,
      l.map (fun a => axObs (styleAx p (styleAx p a)))
        = l.map (fun a => axObs (styleAx p a)) := by
    intro l
    induction l with
    | nil => rfl
    | cons x xs ih => simp [ih, styleAx_obs_idem]
  simpa [Plot.apply_style, obsPlot, List.map_map, Function.comp] using key f.axes

/-- Counterexample to claim C7 as stated: an update whose second key is
unrecognised does raise, but the recognised first key has already been
applied, so the record does not stay unchanged (`dpi` moved from 300 to
600). -/
theorem claim_C7_counterexample :
    (PlottingConfig.updateRun PlottingConfig.default
        [("dpi", ConfigValue.int 600), ("bogus", ConfigValue.int 1)]).2 = some "bogus"
    ∧ (PlottingConfig.updateRun PlottingConfig.default
        [("dpi", ConfigValue.int 600), ("bogus", ConfigValue.int 1)]).1.dpi = 600
    ∧ PlottingConfig.default.dpi = 300 :=
  ⟨rfl, rfl, rfl⟩

/-- Claim C7 as amended: an update containing an unrecognised key fails
with the unknown-parameter error at the first such key; the recognised
keys before it have been applied, and nothing from the first
unrecognised key onward is. -/
theorem claim_C7_first_unknown_aborts (c : PlottingConfig)
    (pre : List (String × ConfigValue)) (k : String) (v : ConfigValue)
    (rest : List (String × ConfigValue))
    (hpre : ∀ kv ∈ pre, PlottingConfig.recognized kv.1 = true)
    (hk : PlottingConfig.recognized k = false) :
    PlottingConfig.updateRun c (pre ++ (k, v) :: rest)
      = (c.applyAll pre, some k) := by
  revert hpre
  induction pre generalizing c with
  | nil =>
    intro _
    simp [PlottingConfig.updateRun, PlottingConfig.applyAll, hk]
  | cons x xs ih =>
    intro hpre
    obtain ⟨xk, xv⟩ := x
    have hx : PlottingConfig.recognized xk = true :=
      hpre (xk, xv) (List.mem_cons_self _ _)
    simp only [List.cons_append, PlottingConfig.updateRun, hx, if_true,
      PlottingConfig.applyAll, List.foldl_cons]
    exact ih (c.setAttr xk xv) fun kv hkv => hpre kv (List.mem_cons_of_mem _ hkv)

/-- Witness for amended claim C7: one recognised key, then an
unrecognised one. -/
theorem claim_C7_witness :
    PlottingConfig.updateRun PlottingConfig.default
        [("dpi", ConfigValue.int 500), ("nonsense", ConfigValue.int 1)]
      = (PlottingConfig.default.applyAll [("dpi", ConfigValue.int 500)],
         some "nonsense") :=
  claim_C7_first_unknown_aborts PlottingConfig.default
    [("dpi", ConfigValue.int 500)] "nonsense" (ConfigValue.int 1) []
    (by decide) (by decide)

/-- Claim C8: `load_fonts` on a process where fonts are not yet loaded
and the font directory is absent records exactly one warning, marks
fonts loaded, registers nothing and raises nothing (the embedded
function is total); once the flag is set, every further `load_fonts`
call — with any directory state — returns the state unchanged. -/
theorem claim_C8_load_fonts (s : FontState) (hs : s.fontsLoaded = false)
    (d : FontDir) :
    (FontManager.load_fonts s FontDir.absent).fontsLoaded = true
    ∧ (FontManager.load_fonts s FontDir.absent).warnings
        = s.warnings ++ ["Font directory not found. Using system fonts only."]
    ∧ (FontManager.load_fonts s FontDir.absent).availableFonts = s.availableFonts
    ∧ FontManager.load_fonts (FontManager.load_fonts s FontDir.absent) d
        = FontManager.load_fonts s FontDir.absent
    ∧ ∀ s2 : FontState, s2.fontsLoaded = true → FontManager.load_fonts s2 d = s2 := by
  have key : ∀ s2 : FontState, s2.fontsLoaded = true →
      FontManager.load_fonts s2 d = s2 := by
    intro s2 h2
    simp [FontManager.load_fonts, h2]
  refine ⟨?_, ?_, ?_, ?_, key⟩
  · simp [FontManager.load_fonts, hs]
  · simp [FontManager.load_fonts, hs]
  · simp [FontManager.load_fonts, hs]
  · exact key _ (by simp [FontManager.load_fonts, hs])

/-- Witness for claim C8 at the fresh process state. -/
theorem claim_C8_witness :
    (FontManager.load_fonts ⟨false, [], []⟩ FontDir.absent).fontsLoaded = true
    ∧ FontManager.load_fonts (FontManager.load_fonts ⟨false, [], []⟩ FontDir.absent)
        (FontDir.present []) = FontManager.load_fonts ⟨false, [], []⟩ FontDir.absent :=
  ⟨(claim_C8_load_fonts ⟨false, [], []⟩ rfl (FontDir.present [])).1,
   (claim_C8_load_fonts ⟨false, [], []⟩ rfl (FontDir.present [])).2.2.2.1⟩

/-- The Python `or` fallback always yields a value when the fallback
lookup succeeds. -/
theorem orFalsyInt_isSome (v : Option Int) (n : Int) :
    ∃ m, orFalsyInt v (some n) = some m := by
  cases v with
  | none => exact ⟨n, rfl⟩
  | some k =>
    by_cases h : k = 0
    · exact ⟨n, by simp [orFalsyInt, h]⟩
    · exact ⟨k, by simp [orFalsyInt, h]⟩

/-- Evaluation shape of `set_rc_params` once the three size fallbacks
resolve. -/
theorem set_rc_params_eq (cfg : PlottingConfig) (available : List String)
    (fam : Option String) (small medium big : Option Int) (s m b : Int)
    (hs : orFalsyInt small (lookupSize cfg.font_sizes "small") = some s)
    (hm : orFalsyInt medium (lookupSize cfg.font_sizes "medium") = some m)
    (hb : orFalsyInt big (lookupSize cfg.font_sizes "big") = some b) :
    Plotting.set_rc_params cfg available fam small medium big = some
      { font_family :=
          if orFalsyStr fam cfg.default_font ∈ available then
            orFalsyStr fam cfg.default_font
          else "DejaVu Sans"
        font_size := m
        axes_titlesize := b
        axes_labelsize := m
        xtick_labelsize := s
        ytick_labelsize := s
        legend_fontsize := s
        savefig_dpi := cfg.dpi
        figure_dpi := cfg.dpi
        pdf_fonttype := 42
        ps_fonttype := 42 } := by
  simp [Plotting.set_rc_params, hs, hm, hb]

/-- Claim C10: `set_rc_params` silently replaces a falsy argument by the
configuration default — `small = 0` (and `medium = 0`, `big = 0`,
`fontfamily = None`) raises no error, and the written rc parameters take
that tier from the record (tick labels and legend at 8 for the default
record when `small = 0`, label sizes 10 when `medium = 0`, title size 12
when `big = 0`, and the record's font family when `fontfamily = None`
and that family is available). -/
theorem claim_C10_falsy_args_fall_back (available : List String)
    (fam : Option String) (sm md bg : Option Int)
    (hA : "Arial" ∈ available) :
    (Plotting.set_rc_params PlottingConfig.default available fam (some 0) md bg).map
        RcParams.xtick_labelsize = some 8
    ∧ (Plotting.set_rc_params PlottingConfig.default available fam (some 0) md bg).map
        RcParams.ytick_labelsize = some 8
    ∧ (Plotting.set_rc_params PlottingConfig.default available fam (some 0) md bg).map
        RcParams.legend_fontsize = some 8
    ∧ (Plotting.set_rc_params PlottingConfig.default available fam sm (some 0) bg).map
        RcParams.font_size = some 10
    ∧ (Plotting.set_rc_params PlottingConfig.default available fam sm (some 0) bg).map
        RcParams.axes_labelsize = some 10
    ∧ (Plotting.set_rc_params PlottingConfig.default available fam sm md (some 0)).map
        RcParams.axes_titlesize = some 12
    ∧ (Plotting.set_rc_params PlottingConfig.default available none sm md bg).map
        RcParams.font_family = some "Arial" := by
  obtain ⟨s1, hs1⟩ := orFalsyInt_isSome sm 8
  obtain ⟨m1, hm1⟩ := orFalsyInt_isSome md 10
  obtain ⟨b1, hb1⟩ := orFalsyInt_isSome bg 12
  have l_small : lookupSize PlottingConfig.default.font_sizes "small" = some 8 := rfl
  have l_med : lookupSize PlottingConfig.default.font_sizes "medium" = some 10 := rfl
  have l_big : lookupSize PlottingConfig.default.font_sizes "big" = some 12 := rfl
  refine ⟨?_, ?_, ?_, ?_, ?_, ?_, ?_⟩
  · rw [set_rc_params_eq _ _ _ _ _ _ 8 m1 b1 (by rw [l_small]; rfl)
      (by rw [l_med]; exact hm1) (by rw [l_big]; exact hb1)]
    rfl
  · rw [set_rc_params_eq _ _ _ _ _ _ 8 m1 b1 (by rw [l_small]; rfl)
      (by rw [l_med]; exact hm1) (by rw [l_big]; exact hb1)]
    rfl
  · rw [set_rc_params_eq _ _ _ _ _ _ 8 m1 b1 (by rw [l_small]; rfl)
      (by rw [l_med]; exact hm1) (by rw [l_big]; exact hb1)]
    rfl
  · rw [set_rc_params_eq _ _ _ _ _ _ s1 10 b1 (by rw [l_small]; exact hs1)
      (by rw [l_med]; rfl) (by rw [l_big]; exact hb1)]
    rfl
  · rw [set_rc_params_eq _ _ _ _ _ _ s1 10 b1 (by rw [l_small]; exact hs1)
      (by rw [l_med]; rfl) (by rw [l_big]; exact hb1)]
    rfl
  · rw [set_rc_params_eq _ _ _ _ _ _ s1 m1 12 (by rw [l_small]; exact hs1)
      (by rw [l_med]; exact hm1) (by rw [l_big]; rfl)]
    rfl
  · rw [set_rc_params_eq _ _ _ _ _ _ s1 m1 b1 (by rw [l_small]; exact hs1)
      (by rw [l_med]; exact hm1) (by rw [l_big]; exact hb1)]
    simp [orFalsyStr, PlottingConfig.default, hA]

/-- Witness for claim C10 with `available = ["Arial"]`. -/
theorem claim_C10_witness :
    (Plotting.set_rc_params PlottingConfig.default ["Arial"] (some "Helvetica")
        (some 0) (some 5) none).map RcParams.xtick_labelsize = some 8
    ∧ (Plotting.set_rc_params PlottingConfig.default ["Arial"] none none
        (some 5) none).map RcParams.font_family = some "Arial" :=
  ⟨(claim_C10_falsy_args_fall_back ["Arial"] (some "Helvetica") none (some 5) none
      (by simp)).1,
   (claim_C10_falsy_args_fall_back ["Arial"] (some "Helvetica") none (some 5) none
      (by simp)).2.2.2.2.2.2⟩
